import Mathlib

/-!
Verification of `zerver/management/commands/create_user.py` (the `Command`
management command).  The command is embedded shallowly: the option record
mirrors the argparse result (`argparse.SUPPRESS` positionals become `Option`
fields, absent = `none`), the external collaborators (realm resolver, email
validator, initial-password helper, file system, `do_create_user`, stdin)
are a record of functions, and `handle` returns its outcome together with a
trace of the externally visible calls it made.
-/

namespace CreateUser

/-- Exceptions that can flow through `Command.handle`.  `commandError`
models Django `CommandError` (printed as a single-line message, non-zero
exit), `integrityError` models `django.db.utils.IntegrityError`,
`osError` models a file-system failure raised by `open`/`read`,
`eofError` models `EOFError` from `input()` at end of stdin, and
`otherError` stands for any other exception an external call may raise. -/
inductive Err where
  | commandError (msg : String)
  | integrityError
  | osError (msg : String)
  | eofError
  | otherError (msg : String)
  deriving DecidableEq, Repr

/-- Externally visible calls made by `Command.handle`, in order.  `R` is the
opaque type of realms.  `callCreateUser` records the exact arguments passed
to `do_create_user`, including the `acting_user` keyword. -/
inductive Effect (R : Type) where
  | getRealmEff
  | validateEmail (s : String)
  | promptEmail
  | printInvalidEmail
  | promptFullName
  | readPasswordFile (path : String)
  | callInitialPassword (email : String)
  | callCreateUser (email password : String) (realm : R) (fullName : String)
      (actingUser : Option Unit)
  deriving DecidableEq

/-- The argparse result for `create_user`.  The positionals `email` and
`full_name` use `default=argparse.SUPPRESS`, so the key is absent when not
supplied: `none` models the absent key.  `--password` and `--password-file`
default to `None`. -/
structure Options where
  tos : Bool
  password : Option String
  password_file : Option String
  email : Option String
  full_name : Option String
  deriving DecidableEq, Repr

/-- The external collaborators of the command.
`getRealm` is modelled from the spec: a tenant/realm resolver driven by
shared CLI flags (`zerver.lib.management.ZulipBaseCommand.get_realm`, not in
the sources), which either yields a realm or fails.
`validEmail` models `django.core.validators.validate_email` (external):
`true` means the validator accepts, `false` means it raises
`ValidationError`.
`initialPassword` is modelled from the spec: the deterministic
initial-password helper keyed by email (`zerver.lib.initial_password`, not
in the sources), returning `none` when the password is unusable.
`readFile` models `open(path).read()`, which may fail with an OS error.
`doCreateUser` is modelled from the spec: the external user-creation
operation (`zerver.lib.actions.do_create_user`, not in the sources), which
may raise `integrityError` on a duplicate identity or any other exception.
`inputs` is the stream of lines `input()` will return. -/
structure Env (R : Type) where
  getRealm : Except Err R
  validEmail : String → Bool
  initialPassword : String → Option String
  readFile : String → Except Err String
  doCreateUser : String → String → R → String → Option Unit → Except Err Unit
  inputs : List String

/-- The message of the `CommandError` raised when `--this-user-has-accepted-the-tos`
is missing (a triple-quoted string containing one newline). -/
def tosErrorMsg : String :=
  "You must confirm that this user has accepted the\nTerms of Service by passing --this-user-has-accepted-the-tos."

/-- The message of the usage `CommandError` raised when exactly one of the
two positionals is supplied (a triple-quoted string containing one newline). -/
def usageErrorMsg : String :=
  "Either specify an email and full name as two\nparameters, or specify no parameters for interactive user creation."

/-- Python `str.strip()` with no argument: remove leading and trailing
whitespace characters. -/
def pyStrip (s : String) : String :=
  ⟨((s.data.dropWhile Char.isWhitespace).reverse.dropWhile Char.isWhitespace).reverse⟩

/-- The interactive email loop (`while True: email = input("Email: ") ...`):
prompt, validate, break on success, print the error and repeat on failure.
`input()` raises `EOFError` when stdin is exhausted.  Returns the accepted
email and the remaining input lines, with the trace of prompts and
validations. -/
def emailPromptLoop (R : Type) (validEmail : String → Bool) :
    List String → Except Err (String × List String) × List (Effect R)
  | [] => (.error .eofError, [.promptEmail])
  | s :: rest =>
      if validEmail s then
        (.ok (s, rest), [.promptEmail, .validateEmail s])
      else
        let p := emailPromptLoop R validEmail rest
        (p.1, .promptEmail :: .validateEmail s :: .printInvalidEmail :: p.2)

/-- Resolution of email and full name (the outer `try/except KeyError`
block of `handle`).  Reading `options["email"]` or `options["full_name"]`
raises `KeyError` when the positional was suppressed; with both present the
email is validated (`CommandError "Invalid email address."` on failure);
with exactly one present the `KeyError` handler raises the usage error;
with neither present the interactive loop runs and then `input("Full name: ")`
is read with no validation.  Returns the resolved email, full name and the
unconsumed input lines. -/
def resolveIdentity {R : Type} (env : Env R) (opts : Options) :
    Except Err (String × String × List String) × List (Effect R) :=
  match opts.email, opts.full_name with
  | some e, some fn =>
      if env.validEmail e then
        (.ok (e, fn, env.inputs), [.validateEmail e])
      else
        (.error (.commandError "Invalid email address."), [.validateEmail e])
  | some _, none => (.error (.commandError usageErrorMsg), [])
  | none, some _ => (.error (.commandError usageErrorMsg), [])
  | none, none =>
      match emailPromptLoop R env.validEmail env.inputs with
      | (.error e, t) => (.error e, t)
      | (.ok (email, rest), t) =>
          match rest with
          | [] => (.error .eofError, t ++ [.promptFullName])
          | fn :: rest2 => (.ok (email, fn, rest2), t ++ [.promptFullName])

/-- Password resolution (`if options["password_file"] is not None: ...`):
first a supplied password file is opened and its contents stripped; else a
supplied `--password` string is used as is; else the initial-password
helper is consulted for the email, failing with
`CommandError "Password is unusable."` when it returns `None`. -/
def resolvePassword {R : Type} (env : Env R) (opts : Options) (email : String) :
    Except Err String × List (Effect R) :=
  match opts.password_file with
  | some path =>
      match env.readFile path with
      | .error e => (.error e, [.readPasswordFile path])
      | .ok contents => (.ok (pyStrip contents), [.readPasswordFile path])
  | none =>
      match opts.password with
      | some p => (.ok p, [])
      | none =>
          match env.initialPassword email with
          | none =>
              (.error (.commandError "Password is unusable."),
               [.callInitialPassword email])
          | some p => (.ok p, [.callInitialPassword email])

/-- `Command.handle`: the ToS guard, realm resolution (with its
parser-ensured success assertion), identity resolution, then the
`try: ... except IntegrityError:` block containing password resolution and
the `do_create_user` call (`acting_user=None`); an `IntegrityError` escaping
that block is replaced by `CommandError "User already exists."` and every
other exception propagates unchanged. -/
def handle {R : Type} (env : Env R) (opts : Options) :
    Except Err Unit × List (Effect R) :=
  if opts.tos = false then
    (.error (.commandError tosErrorMsg), [])
  else
    match env.getRealm with
    | .error e => (.error e, [.getRealmEff])
    | .ok realm =>
      let idr := resolveIdentity env opts
      match idr.1 with
      | .error e => (.error e, .getRealmEff :: idr.2)
      | .ok (email, fullName, _rest) =>
        let pr := resolvePassword env opts email
        let blk : Except Err Unit × List (Effect R) :=
          match pr.1 with
          | .error e => (.error e, pr.2)
          | .ok pw =>
              match env.doCreateUser email pw realm fullName none with
              | .error e =>
                  (.error e, pr.2 ++ [.callCreateUser email pw realm fullName none])
              | .ok _ =>
                  (.ok (), pr.2 ++ [.callCreateUser email pw realm fullName none])
        let res : Except Err Unit :=
          match blk.1 with
          | .error .integrityError => .error (.commandError "User already exists.")
          | r => r
        (res, .getRealmEff :: (idr.2 ++ blk.2))

/-- Recognizer for the `do_create_user` call in a trace. -/
def isCreateUser {R : Type} : Effect R → Bool
  | .callCreateUser _ _ _ _ _ => true
  | _ => false

/-- The interactive email loop never calls `do_create_user`. -/
theorem emailPromptLoop_no_create {R : Type} (v : String → Bool) (l : List String) :
    ((emailPromptLoop R v l).2).filter isCreateUser = [] := by
  induction l with
  | nil => simp [emailPromptLoop, isCreateUser]
  | cons s rest ih =>
      by_cases h : v s <;> simp [emailPromptLoop, h, isCreateUser, ih]

/-- Identity resolution never calls `do_create_user`. -/
theorem resolveIdentity_no_create {R : Type} (env : Env R) (opts : Options) :
    ((resolveIdentity env opts).2).filter isCreateUser = [] := by
  have ht := emailPromptLoop_no_create (R := R) env.validEmail env.inputs
  unfold resolveIdentity
  rcases he : opts.email with _ | e <;> rcases hf : opts.full_name with _ | fn
  · rcases hp : emailPromptLoop R env.validEmail env.inputs with ⟨r, t⟩
    rw [hp] at ht
    rcases r with err | ⟨em, rest⟩
    · simpa using ht
    · rcases rest with _ | ⟨f, r2⟩ <;> simp [isCreateUser] <;> simpa using ht
  · simp
  · simp
  · by_cases hv : env.validEmail e <;> simp [hv, isCreateUser]

/-- Password resolution never calls `do_create_user`. -/
theorem resolvePassword_no_create {R : Type} (env : Env R) (opts : Options)
    (email : String) :
    ((resolvePassword env opts email).2).filter isCreateUser = [] := by
  unfold resolvePassword
  rcases opts.password_file with _ | path
  · rcases opts.password with _ | p
    · rcases hip : env.initialPassword email with _ | q <;> simp [hip, isCreateUser]
    · simp
  · rcases hrd : env.readFile path with e | c <;> simp [hrd, isCreateUser]

/-- A concrete environment over `R = String`, used to instantiate the
universally quantified theorems below on closed inputs. -/
def envC : Env String where
  getRealm := .ok "zulip"
  validEmail := fun s => s.data.contains '@'
  initialPassword := fun e => some (e ++ "+initial")
  readFile := fun _ => .ok "  secret123  \n"
  doCreateUser := fun _ _ _ _ _ => .ok ()
  inputs := []

/-- Options with the ToS flag set and nothing else supplied. -/
def optsBase : Options where
  tos := true
  password := none
  password_file := none
  email := none
  full_name := none

/-- Options supplying both positionals, `--password` and `--password-file`. -/
def optsBoth : Options :=
  { optsBase with
      email := some "user@example.com"
      full_name := some "Full Name"
      password := some "flagpw"
      password_file := some "pw.txt" }

/-- Claim C1: password resolution follows the fixed precedence file >
explicit string > generated initial password, the first match winning; in
particular with `--password-file` supplied the file value (stripped) is the
resolved password whatever `opts.password` holds, so a simultaneous
`--password` value is ignored. -/
theorem c1_password_precedence {R : Type} (env : Env R) (opts : Options)
    (email : String) :
    (∀ path c, opts.password_file = some path → env.readFile path = .ok c →
      (resolvePassword env opts email).1 = .ok (pyStrip c)) ∧
    (opts.password_file = none → ∀ p, opts.password = some p →
      (resolvePassword env opts email).1 = .ok p) ∧
    (opts.password_file = none → opts.password = none → ∀ p,
      env.initialPassword email = some p →
      (resolvePassword env opts email).1 = .ok p) := by
  refine ⟨?_, ?_, ?_⟩
  · intro path c hpf hrd
    simp [resolvePassword, hpf, hrd]
  · intro hpf p hp
    simp [resolvePassword, hpf, hp]
  · intro hpf hp p hip
    simp [resolvePassword, hpf, hp, hip]

/-- Witness for C1: with both `--password "flagpw"` and
`--password-file pw.txt` given, the resolved password is the stripped file
contents, not the flag value. -/
theorem c1_password_precedence_witness :
    optsBoth.password_file = some "pw.txt" ∧
    optsBoth.password = some "flagpw" ∧
    envC.readFile "pw.txt" = .ok "  secret123  \n" ∧
    (resolvePassword envC optsBoth "user@example.com").1 = .ok "secret123" := by
  refine ⟨rfl, rfl, rfl, ?_⟩
  have h := (c1_password_precedence envC optsBoth "user@example.com").1
    "pw.txt" "  secret123  \n" rfl rfl
  exact h.trans (congrArg Except.ok (by decide))

/-- Claim C2: with the ToS acceptance flag false, the command fails at once
with the fatal ToS `CommandError` and the trace is empty: the realm is not
resolved, no validation or prompting happens, no password is resolved, and
`do_create_user` is never called, whatever the other options are. -/
theorem c2_tos_guard {R : Type} (env : Env R) (opts : Options)
    (h : opts.tos = false) :
    handle env opts = (.error (.commandError tosErrorMsg), ([] : List (Effect R))) := by
  simp [handle, h]

/-- Witness for C2 at a concrete invocation that supplies everything else. -/
theorem c2_tos_guard_witness :
    ({ optsBoth with tos := false } : Options).tos = false ∧
    handle envC { optsBoth with tos := false } =
      (.error (.commandError tosErrorMsg), ([] : List (Effect String))) :=
  ⟨rfl, c2_tos_guard envC { optsBoth with tos := false } rfl⟩

/-- Claim C6: with a password file supplied, the resolved password is the
file contents with leading and trailing whitespace stripped. -/
theorem c6_password_file_stripped {R : Type} (env : Env R) (opts : Options)
    (email path c : String)
    (hpf : opts.password_file = some path) (hrd : env.readFile path = .ok c) :
    (resolvePassword env opts email).1 = .ok (pyStrip c) := by
  simp [resolvePassword, hpf, hrd]

/-- Options supplying both positionals and `--password-file` only. -/
def optsFile : Options :=
  { optsBase with
      email := some "user@example.com"
      full_name := some "Full Name"
      password_file := some "pw.txt" }

/-- Witness for C6: a file containing `"  secret123  \n"` resolves to
exactly `"secret123"`. -/
theorem c6_password_file_stripped_witness :
    optsFile.password_file = some "pw.txt" ∧
    envC.readFile "pw.txt" = .ok "  secret123  \n" ∧
    (resolvePassword envC optsFile "user@example.com").1 = .ok "secret123" :=
  ⟨rfl, rfl,
    (c6_password_file_stripped envC optsFile "user@example.com" "pw.txt"
      "  secret123  \n" rfl rfl).trans (congrArg Except.ok (by decide))⟩

/-- Claim C4: with exactly one of the two positionals supplied (and the
earlier guards passed), the command fails with the usage `CommandError`
describing the two valid invocation shapes and `do_create_user` is never
called. -/
theorem c4_usage_error {R : Type} (env : Env R) (opts : Options) (r : R)
    (htos : opts.tos = true) (hr : env.getRealm = .ok r)
    (hone : opts.email.isSome ≠ opts.full_name.isSome) :
    (handle env opts).1 = .error (.commandError usageErrorMsg) ∧
    ((handle env opts).2).filter isCreateUser = [] := by
  rcases he : opts.email with _ | e <;> rcases hf : opts.full_name with _ | fn
  · rw [he, hf] at hone
    simp at hone
  · constructor <;> simp [handle, htos, hr, resolveIdentity, he, hf, isCreateUser]
  · constructor <;> simp [handle, htos, hr, resolveIdentity, he, hf, isCreateUser]
  · rw [he, hf] at hone
    simp at hone

/-- Options supplying only the email positional. -/
def optsOnlyEmail : Options :=
  { optsBase with email := some "user@example.com" }

/-- Witness for C4 on an invocation that supplies only the email. -/
theorem c4_usage_error_witness :
    optsOnlyEmail.tos = true ∧
    envC.getRealm = .ok "zulip" ∧
    optsOnlyEmail.email.isSome ≠ optsOnlyEmail.full_name.isSome ∧
    (handle envC optsOnlyEmail).1 = .error (.commandError usageErrorMsg) ∧
    ((handle envC optsOnlyEmail).2).filter isCreateUser = [] := by
  refine ⟨rfl, rfl, by decide, ?_, ?_⟩
  · exact (c4_usage_error envC optsOnlyEmail "zulip" rfl rfl (by decide)).1
  · exact (c4_usage_error envC optsOnlyEmail "zulip" rfl rfl (by decide)).2

/-- Claim C5: in non-interactive mode (both positionals supplied), an email
the validator rejects makes the command fail with
`CommandError "Invalid email address."` and `do_create_user` is never
called. -/
theorem c5_invalid_email {R : Type} (env : Env R) (opts : Options) (r : R)
    (e fn : String)
    (htos : opts.tos = true) (hr : env.getRealm = .ok r)
    (he : opts.email = some e) (hf : opts.full_name = some fn)
    (hv : env.validEmail e = false) :
    (handle env opts).1 = .error (.commandError "Invalid email address.") ∧
    ((handle env opts).2).filter isCreateUser = [] := by
  constructor <;> simp [handle, htos, hr, resolveIdentity, he, hf, hv, isCreateUser]

/-- Options supplying a syntactically invalid email and a full name. -/
def optsBadEmail : Options :=
  { optsBase with email := some "bademail", full_name := some "Full Name" }

/-- Witness for C5 with the invalid email `"bademail"`. -/
theorem c5_invalid_email_witness :
    optsBadEmail.tos = true ∧
    envC.getRealm = .ok "zulip" ∧
    optsBadEmail.email = some "bademail" ∧
    optsBadEmail.full_name = some "Full Name" ∧
    envC.validEmail "bademail" = false ∧
    (handle envC optsBadEmail).1 = .error (.commandError "Invalid email address.") ∧
    ((handle envC optsBadEmail).2).filter isCreateUser = [] := by
  refine ⟨rfl, rfl, rfl, rfl, by decide, ?_, ?_⟩
  · exact (c5_invalid_email envC optsBadEmail "zulip" "bademail" "Full Name"
      rfl rfl rfl rfl (by decide)).1
  · exact (c5_invalid_email envC optsBadEmail "zulip" "bademail" "Full Name"
      rfl rfl rfl rfl (by decide)).2

/-- Claim C3: an `IntegrityError` from `do_create_user` is reported as
exactly `CommandError "User already exists."` (a non-zero exit), while any
other exception, whether raised during password resolution or by
`do_create_user`, propagates unchanged. -/
theorem c3_integrity_translation {R : Type} (env : Env R) (opts : Options)
    (r : R) (e fn : String) (rest : List String)
    (htos : opts.tos = true) (hr : env.getRealm = .ok r)
    (hid : (resolveIdentity env opts).1 = .ok (e, fn, rest)) :
    (∀ pw, (resolvePassword env opts e).1 = .ok pw →
      env.doCreateUser e pw r fn none = .error .integrityError →
      (handle env opts).1 = .error (.commandError "User already exists.")) ∧
    (∀ err, err ≠ Err.integrityError →
      (resolvePassword env opts e).1 = .error err →
      (handle env opts).1 = .error err) ∧
    (∀ pw err, err ≠ Err.integrityError →
      (resolvePassword env opts e).1 = .ok pw →
      env.doCreateUser e pw r fn none = .error err →
      (handle env opts).1 = .error err) := by
  refine ⟨?_, ?_, ?_⟩
  · intro pw hpw hdc
    simp [handle, htos, hr, hid, hpw, hdc]
  · intro err hne hpw
    cases err <;> simp_all [handle, htos, hr, hid, hpw]
  · intro pw err hne hpw hdc
    cases err <;> simp_all [handle, htos, hr, hid, hpw, hdc]

/-- Environment in which `do_create_user` raises `IntegrityError`. -/
def envDup : Env String :=
  { envC with doCreateUser := fun _ _ _ _ _ => .error .integrityError }

/-- Options supplying both positionals and an explicit `--password`. -/
def optsPw : Options :=
  { optsBase with
      email := some "user@example.com"
      full_name := some "Full Name"
      password := some "flagpw" }

/-- Witness for C3: a duplicate user is reported as
`CommandError "User already exists."`. -/
theorem c3_integrity_translation_witness :
    optsPw.tos = true ∧
    envDup.getRealm = .ok "zulip" ∧
    (resolveIdentity envDup optsPw).1 = .ok ("user@example.com", "Full Name", []) ∧
    (resolvePassword envDup optsPw "user@example.com").1 = .ok "flagpw" ∧
    envDup.doCreateUser "user@example.com" "flagpw" "zulip" "Full Name" none =
      .error .integrityError ∧
    (handle envDup optsPw).1 = .error (.commandError "User already exists.") := by
  refine ⟨rfl, rfl, by simp [resolveIdentity, envDup, envC, optsPw, optsBase], rfl, rfl, ?_⟩
  exact (c3_integrity_translation envDup optsPw "zulip" "user@example.com"
    "Full Name" [] rfl rfl (by simp [resolveIdentity, envDup, envC, optsPw, optsBase])).1
    "flagpw" rfl rfl

/-- Claim C7: with neither `--password-file` nor `--password` supplied, the
initial-password helper is consulted for the resolved email; when it
returns nothing the command fails with `CommandError "Password is unusable."`
and `do_create_user` is never called; when it returns a password that value
is the resolved password. -/
theorem c7_generated_password {R : Type} (env : Env R) (opts : Options)
    (r : R) (e fn : String) (rest : List String)
    (htos : opts.tos = true) (hr : env.getRealm = .ok r)
    (hid : (resolveIdentity env opts).1 = .ok (e, fn, rest))
    (hpf : opts.password_file = none) (hp : opts.password = none) :
    ((resolvePassword env opts e).2 = [.callInitialPassword e]) ∧
    (env.initialPassword e = none →
      (handle env opts).1 = .error (.commandError "Password is unusable.") ∧
      ((handle env opts).2).filter isCreateUser = []) ∧
    (∀ p, env.initialPassword e = some p →
      (resolvePassword env opts e).1 = .ok p) := by
  refine ⟨?_, ?_, ?_⟩
  · rcases hip : env.initialPassword e with _ | q <;>
      simp [resolvePassword, hpf, hp, hip]
  · intro hip
    have hno := resolveIdentity_no_create env opts
    constructor <;>
      simp [handle, htos, hr, hid, resolvePassword, hpf, hp, hip, hno, isCreateUser]
  · intro p hip
    simp [resolvePassword, hpf, hp, hip]

/-- Environment whose initial-password helper reports the password
unusable. -/
def envNoPw : Env String :=
  { envC with initialPassword := fun _ => none }

/-- Options supplying both positionals and no password flags. -/
def optsPlain : Options :=
  { optsBase with
      email := some "user@example.com"
      full_name := some "Full Name" }

/-- Witness for C7 with an unusable generated password. -/
theorem c7_generated_password_witness :
    optsPlain.tos = true ∧
    envNoPw.getRealm = .ok "zulip" ∧
    (resolveIdentity envNoPw optsPlain).1 = .ok ("user@example.com", "Full Name", []) ∧
    optsPlain.password_file = none ∧
    optsPlain.password = none ∧
    envNoPw.initialPassword "user@example.com" = none ∧
    (resolvePassword envNoPw optsPlain "user@example.com").2 =
      [.callInitialPassword "user@example.com"] ∧
    (handle envNoPw optsPlain).1 = .error (.commandError "Password is unusable.") ∧
    ((handle envNoPw optsPlain).2).filter isCreateUser = [] := by
  have hid : (resolveIdentity envNoPw optsPlain).1 =
      .ok ("user@example.com", "Full Name", []) := by
    simp [resolveIdentity, envNoPw, envC, optsPlain, optsBase]
  have h := c7_generated_password envNoPw optsPlain "zulip" "user@example.com"
    "Full Name" [] rfl rfl hid rfl rfl
  exact ⟨rfl, rfl, hid, rfl, rfl, rfl, h.1, (h.2.1 rfl).1, (h.2.1 rfl).2⟩

/-- Claim C10: when reading the password file fails with an OS error, that
error propagates out of `handle` unchanged — it is not turned into a
`CommandError` — and `do_create_user` is never called. -/
theorem c10_file_error_propagates {R : Type} (env : Env R) (opts : Options)
    (r : R) (e fn : String) (rest : List String) (path msg : String)
    (htos : opts.tos = true) (hr : env.getRealm = .ok r)
    (hid : (resolveIdentity env opts).1 = .ok (e, fn, rest))
    (hpf : opts.password_file = some path)
    (hrd : env.readFile path = .error (.osError msg)) :
    (handle env opts).1 = .error (.osError msg) ∧
    ((handle env opts).2).filter isCreateUser = [] := by
  have hno := resolveIdentity_no_create env opts
  constructor <;>
    simp [handle, htos, hr, hid, resolvePassword, hpf, hrd, hno, isCreateUser]

/-- Environment whose file system rejects every open. -/
def envBadFile : Env String :=
  { envC with readFile := fun _ => .error (.osError "No such file or directory") }

/-- Witness for C10: a missing password file makes the OS error escape
`handle` untranslated. -/
theorem c10_file_error_propagates_witness :
    optsFile.tos = true ∧
    envBadFile.getRealm = .ok "zulip" ∧
    (resolveIdentity envBadFile optsFile).1 = .ok ("user@example.com", "Full Name", []) ∧
    optsFile.password_file = some "pw.txt" ∧
    envBadFile.readFile "pw.txt" = .error (.osError "No such file or directory") ∧
    (handle envBadFile optsFile).1 = .error (.osError "No such file or directory") ∧
    ((handle envBadFile optsFile).2).filter isCreateUser = [] := by
  have hid : (resolveIdentity envBadFile optsFile).1 =
      .ok ("user@example.com", "Full Name", []) := by
    simp [resolveIdentity, envBadFile, envC, optsFile, optsBase]
  have h := c10_file_error_propagates envBadFile optsFile "zulip" "user@example.com"
    "Full Name" [] "pw.txt" "No such file or directory" rfl rfl hid rfl rfl
  exact ⟨rfl, rfl, hid, rfl, rfl, h.1, h.2⟩

/-- The trace the interactive loop leaves for a run of rejected inputs:
prompt, validate, print `"Invalid email address."`, repeat. -/
def invalidTrace (R : Type) : List String → List (Effect R)
  | [] => []
  | b :: bs =>
      .promptEmail :: .validateEmail b :: .printInvalidEmail :: invalidTrace R bs

/-- The interactive loop consumes every rejected input, re-prompting with
an error each time, and stops at the first input the validator accepts. -/
theorem emailPromptLoop_append {R : Type} (v : String → Bool)
    (bads : List String) (good : String) (rest : List String)
    (hb : ∀ b ∈ bads, v b = false) (hg : v good = true) :
    emailPromptLoop R v (bads ++ good :: rest) =
      (.ok (good, rest), invalidTrace R bads ++ [.promptEmail, .validateEmail good]) := by
  induction bads with
  | nil => simp [emailPromptLoop, hg, invalidTrace]
  | cons b bs ih =>
      have hb0 : v b = false := hb b (by simp)
      have hbs : ∀ x ∈ bs, v x = false := fun x hx => hb x (by simp [hx])
      simp [emailPromptLoop, hb0, invalidTrace, ih hbs]

/-- Claim C8: with neither positional supplied, the command loops prompting
for an email, printing the error and re-prompting for every input the
validator rejects, until one validates; it then prompts exactly once for
the full name and accepts the next input with no validation. -/
theorem c8_interactive {R : Type} (env : Env R) (opts : Options)
    (bads : List String) (good fn : String) (rest : List String)
    (he : opts.email = none) (hf : opts.full_name = none)
    (hin : env.inputs = bads ++ good :: fn :: rest)
    (hb : ∀ b ∈ bads, env.validEmail b = false)
    (hg : env.validEmail good = true) :
    resolveIdentity env opts =
      (.ok (good, fn, rest),
        invalidTrace R bads ++
          [.promptEmail, .validateEmail good, .promptFullName]) := by
  have h := emailPromptLoop_append (R := R) env.validEmail bads good (fn :: rest) hb hg
  simp [resolveIdentity, he, hf, hin, h]

/-- Environment whose stdin holds one invalid email, then a valid one, then
the full name. -/
def envInteractive : Env String :=
  { envC with inputs := ["bademail", "user@example.com", "Full Name"] }

/-- Witness for C8: one rejected input, then acceptance, then one full-name
prompt. -/
theorem c8_interactive_witness :
    optsBase.email = none ∧
    optsBase.full_name = none ∧
    envInteractive.inputs = ["bademail"] ++ "user@example.com" :: "Full Name" :: [] ∧
    (∀ b ∈ ["bademail"], envInteractive.validEmail b = false) ∧
    envInteractive.validEmail "user@example.com" = true ∧
    resolveIdentity envInteractive optsBase =
      (.ok ("user@example.com", "Full Name", []),
        invalidTrace String ["bademail"] ++
          [.promptEmail, .validateEmail "user@example.com", .promptFullName]) := by
  refine ⟨rfl, rfl, rfl, by decide, by decide, ?_⟩
  exact c8_interactive envInteractive optsBase ["bademail"] "user@example.com"
    "Full Name" [] rfl rfl rfl (by decide) (by decide)

/-- Claim C9: every successful run resolved a realm, an email, a full name
and a password, and its trace holds exactly one `do_create_user` call,
passing precisely those resolved values with `acting_user = None`. -/
theorem c9_create_once {R : Type} (env : Env R) (opts : Options)
    (h : (handle env opts).1 = .ok ()) :
    ∃ realm email pw fullName rest,
      env.getRealm = .ok realm ∧
      (resolveIdentity env opts).1 = .ok (email, fullName, rest) ∧
      (resolvePassword env opts email).1 = .ok pw ∧
      env.doCreateUser email pw realm fullName none = .ok () ∧
      ((handle env opts).2).filter isCreateUser =
        [.callCreateUser email pw realm fullName none] := by
  cases htos : opts.tos with
  | false => simp [handle, htos] at h
  | true =>
    cases hre : env.getRealm with
    | error err => simp [handle, htos, hre] at h
    | ok realm =>
      cases hid : (resolveIdentity env opts).1 with
      | error err => simp [handle, htos, hre, hid] at h
      | ok trip =>
        obtain ⟨email, fullName, rest⟩ := trip
        cases hpw : (resolvePassword env opts email).1 with
        | error err =>
            cases err <;> simp [handle, htos, hre, hid, hpw] at h
        | ok pw =>
          cases hdc : env.doCreateUser email pw realm fullName none with
          | error err =>
              cases err <;> simp [handle, htos, hre, hid, hpw, hdc] at h
          | ok u =>
            cases u
            have hi := resolveIdentity_no_create env opts
            have hp := resolvePassword_no_create env opts email
            refine ⟨realm, email, pw, fullName, rest, rfl, rfl, hpw, hdc, ?_⟩
            simp [handle, htos, hre, hid, hpw, hdc, hi, hp, isCreateUser]

/-- Witness for C9 on a fully successful concrete invocation. -/
theorem c9_create_once_witness :
    (handle envC optsPw).1 = .ok () ∧
    ∃ realm email pw fullName rest,
      envC.getRealm = .ok realm ∧
      (resolveIdentity envC optsPw).1 = .ok (email, fullName, rest) ∧
      (resolvePassword envC optsPw email).1 = .ok pw ∧
      envC.doCreateUser email pw realm fullName none = .ok () ∧
      ((handle envC optsPw).2).filter isCreateUser =
        [.callCreateUser email pw realm fullName none] := by
  have hok : (handle envC optsPw).1 = .ok () := by
    simp [handle, envC, optsPw, optsBase, resolveIdentity, resolvePassword]
  exact ⟨hok, c9_create_once envC optsPw hok⟩

end CreateUser
